import Mathlib

/-!
Shallow embedding of the HealthVault record lifecycle: the record
controller (Backend/controllers/recordController.js), the record routes
with their upload middleware (Backend/routes/records.js, Backend/multer.js),
the Record schema (Backend/models/Record.js) and the account-deletion
cascade (Backend/controllers/userController.js).

Modelling conventions:
* MongoDB documents become Lean structures; the Record repository is a map
  from id strings to records; the Attachment Store (the uploads directory
  on disk) is the list of public paths currently stored.
* `JSON.parse` applied to the `vitals` field is an external JavaScript
  primitive, so it is passed in as a function `parse : String → Option Vitals`;
  `none` stands for a parse exception.
* `fs.unlinkSync` may fail: the injected `unlinkOk` says which unlink calls
  succeed; `deleteFileIfExists` swallows the failure either way, exactly as
  the try/catch in the source does.
* An I/O failure of `record.save()` is injected through the `saveOk` flag.
  The mongoose `required: true` constraint on `title` (models/Record.js) is
  modelled as the title having to be present when the new record is saved;
  the rest of mongoose schema validation is out of scope.
* Every operation also returns the list of externally visible events
  (file writes, file deletes, repository writes and deletes, the ownership
  check) in execution order, so that ordering claims can be stated.
* Route pipelines compose the multer stage — which, per routes/records.js,
  stores every uploaded file to disk before the controller runs — with the
  controller.
-/

/-- Vitals sub-document of a record (models/Record.js, vitalsSchema):
five optional text fields. -/
structure Vitals where
  bloodPressure : Option String
  heartRate : Option String
  bloodSugar : Option String
  weight : Option String
  height : Option String
deriving DecidableEq

/-- The default vitals value, all fields absent (schema default `{}`). -/
def Vitals.empty : Vitals := ⟨none, none, none, none, none⟩

/-- File references of a record (models/Record.js): each slot defaults to
the empty string. -/
structure RecordFiles where
  labReport : String
  prescription : String
deriving DecidableEq

/-- A persisted Record document (models/Record.js). -/
structure HealthRecord where
  id : String
  user : String
  title : String
  medicalHistory : String
  doctorNotes : String
  vitals : Vitals
  files : RecordFiles
deriving DecidableEq

/-- The Record repository: a map from id to the stored document. -/
def DbMap : Type := String → Option HealthRecord

/-- Persistent state: the Record repository and the Attachment Store
(the set of public paths currently on disk, as a list). -/
structure St where
  db : DbMap
  store : List String

/-- Externally visible events, in execution order. -/
inductive Ev where
  | ownershipCheck : Ev
  | fileWrite : String → Ev
  | fileDelete : String → Ev
  | repoSave : String → Ev
  | repoDelete : String → Ev
  | repoDeleteMany : String → Ev
deriving DecidableEq

/-- Outcome sent back to the HTTP caller. -/
inductive Outcome where
  | created : HealthRecord → Outcome
  | ok : HealthRecord → Outcome
  | deleted : Outcome
  | notFound : Outcome
  | unauthorized : Outcome
  | serverError : String → Outcome
deriving DecidableEq

/-- Text fields of a create/update request body; `none` means the key is
absent from the request. -/
structure ReqBody where
  title : Option String
  medicalHistory : Option String
  doctorNotes : Option String
  vitals : Option String
deriving DecidableEq

/-- Uploaded files of a request: for each named slot, the multer-generated
filename of the uploaded file, or `none` when no file was sent. -/
structure ReqFiles where
  labReport : Option String
  prescription : Option String
deriving DecidableEq

/-- Record.findById. -/
def findById (db : DbMap) (rid : String) : Option HealthRecord := db rid

/-- record.save() on an already persisted document: stores the document
under its own id. -/
def saveRecord (db : DbMap) (r : HealthRecord) : DbMap :=
  fun x => if x = r.id then some r else db x

/-- record.deleteOne(): removes the document with the given id. -/
def deleteById (db : DbMap) (rid : String) : DbMap :=
  fun x => if x = rid then none else db x

/-- buildPublicPath from recordController.js: the public URL saved in the
database for a stored upload. -/
def buildPublicPath (folder filename : String) : String :=
  "/uploads/" ++ folder ++ "/" ++ filename

/-- deleteFileIfExists from recordController.js: no-op on an empty path,
no-op when the file does not exist, otherwise unlink with the failure
caught and logged (the event records that a deletion was attempted). -/
def deleteFileIfExists (unlinkOk : String → Bool) (publicPath : String)
    (store : List String) : List String × List Ev :=
  if publicPath = "" then (store, [])
  else if publicPath ∈ store then
    if unlinkOk publicPath then
      (store.filter (fun p => p ≠ publicPath), [Ev.fileDelete publicPath])
    else (store, [Ev.fileDelete publicPath])
  else (store, [])

/-- The vitals expression of createRecord:
`vitals ? JSON.parse(vitals) : \x7b\x7d` — an absent or falsy (empty-string)
vitals yields the default empty structure without parsing; `none` is a
parse exception. -/
def createVitals (parse : String → Option Vitals) (v : Option String) :
    Option Vitals :=
  match v with
  | none => some Vitals.empty
  | some s => if s = "" then some Vitals.empty else parse s

/-- The vitals step of updateRecord: `if (req.body.vitals)` keeps the old
value on an absent or falsy (empty-string) vitals, otherwise parses and
replaces wholesale; `none` is a parse exception. -/
def updateVitals (parse : String → Option Vitals) (v : Option String)
    (old : Vitals) : Option Vitals :=
  match v with
  | none => some old
  | some s => if s = "" then some old else parse s

/-- The partial text-field update of updateRecord (lines 94-98): each field
is overwritten exactly when the request body carries the key. -/
def applyTextFields (body : ReqBody) (r : HealthRecord) : HealthRecord :=
  { r with
    title := body.title.getD r.title
    medicalHistory := body.medicalHistory.getD r.medicalHistory
    doctorNotes := body.doctorNotes.getD r.doctorNotes }

/-- The lab-report replacement block of updateRecord: when a new file came
in, delete the previously referenced file (best-effort) and store the new
public path. Returns the new store, the emitted events and the record. -/
def replaceLabReport (unlinkOk : String → Bool) (fnOpt : Option String)
    (r : HealthRecord) (store : List String) :
    List String × List Ev × HealthRecord :=
  match fnOpt with
  | some fn =>
    let d := deleteFileIfExists unlinkOk r.files.labReport store
    (d.1, d.2, { r with files := { r.files with
      labReport := buildPublicPath "records" fn } })
  | none => (store, [], r)

/-- The prescription replacement block of updateRecord, mirroring
`replaceLabReport`. -/
def replacePrescription (unlinkOk : String → Bool) (fnOpt : Option String)
    (r : HealthRecord) (store : List String) :
    List String × List Ev × HealthRecord :=
  match fnOpt with
  | some fn =>
    let d := deleteFileIfExists unlinkOk r.files.prescription store
    (d.1, d.2, { r with files := { r.files with
      prescription := buildPublicPath "records" fn } })
  | none => (store, [], r)

/-- createRecord (recordController.js): builds the record (parsing vitals),
stores the public paths of the already-uploaded files, and saves. Any
exception — malformed vitals, the `required` title validator, an I/O
failure — is caught by the single catch and mapped to the one generic
500 response. -/
def createRecord (parse : String → Option Vitals) (saveOk : Bool)
    (newId caller : String) (body : ReqBody) (files : ReqFiles) (s : St) :
    St × Outcome × List Ev :=
  match createVitals parse body.vitals with
  | none => (s, Outcome.serverError "Create record failed", [])
  | some v =>
    match body.title with
    | none => (s, Outcome.serverError "Create record failed", [])
    | some t =>
      if saveOk then
        let r : HealthRecord :=
          { id := newId, user := caller, title := t
            medicalHistory := body.medicalHistory.getD ""
            doctorNotes := body.doctorNotes.getD ""
            vitals := v
            files :=
              { labReport :=
                  (files.labReport.map (buildPublicPath "records")).getD ""
                prescription :=
                  (files.prescription.map (buildPublicPath "records")).getD "" } }
        ({ db := fun x => if x = newId then some r else s.db x
           store := s.store },
         Outcome.created r, [Ev.repoSave newId])
      else (s, Outcome.serverError "Create record failed", [])

/-- updateRecord (recordController.js): findById, ownership check, partial
text update, wholesale vitals replacement, attachment replacement, save.
A vitals parse exception reaches the catch before any file operation; a
save failure reaches it after the file deletions already happened. -/
def updateRecord (parse : String → Option Vitals) (unlinkOk : String → Bool)
    (saveOk : Bool) (rid caller : String) (body : ReqBody)
    (files : ReqFiles) (s : St) : St × Outcome × List Ev :=
  match findById s.db rid with
  | none => (s, Outcome.notFound, [])
  | some record =>
    if record.user = caller then
      let r1 := applyTextFields body record
      match updateVitals parse body.vitals r1.vitals with
      | none =>
        (s, Outcome.serverError "Update record failed", [Ev.ownershipCheck])
      | some nv =>
        let r2 := { r1 with vitals := nv }
        let lab := replaceLabReport unlinkOk files.labReport r2 s.store
        let pre := replacePrescription unlinkOk files.prescription lab.2.2 lab.1
        if saveOk then
          ({ db := saveRecord s.db pre.2.2, store := pre.1 },
           Outcome.ok pre.2.2,
           Ev.ownershipCheck ::
             (lab.2.1 ++ pre.2.1 ++ [Ev.repoSave pre.2.2.id]))
        else
          ({ db := s.db, store := pre.1 },
           Outcome.serverError "Update record failed",
           Ev.ownershipCheck :: (lab.2.1 ++ pre.2.1))
    else (s, Outcome.unauthorized, [Ev.ownershipCheck])

/-- deleteRecord (recordController.js): findById, ownership check,
best-effort deletion of both attachment files, then record deletion. -/
def deleteRecord (unlinkOk : String → Bool) (rid caller : String) (s : St) :
    St × Outcome × List Ev :=
  match findById s.db rid with
  | none => (s, Outcome.notFound, [])
  | some record =>
    if record.user = caller then
      let d1 := deleteFileIfExists unlinkOk record.files.labReport s.store
      let d2 := deleteFileIfExists unlinkOk record.files.prescription d1.1
      ({ db := deleteById s.db rid, store := d2.1 },
       Outcome.deleted,
       Ev.ownershipCheck :: (d1.2 ++ d2.2 ++ [Ev.repoDelete rid]))
    else (s, Outcome.unauthorized, [Ev.ownershipCheck])

/-- The multer stage of the record routes (routes/records.js,
`upload.fields([labReport, prescription])` with multer.js diskStorage):
every uploaded file is written to `uploads/records` before the controller
runs. -/
def multerStage (files : ReqFiles) (store : List String) :
    List String × List Ev :=
  let lab := match files.labReport with
    | some fn =>
      (store ++ [buildPublicPath "records" fn],
       [Ev.fileWrite (buildPublicPath "records" fn)])
    | none => (store, [])
  match files.prescription with
  | some fn =>
    (lab.1 ++ [buildPublicPath "records" fn],
     lab.2 ++ [Ev.fileWrite (buildPublicPath "records" fn)])
  | none => lab

/-- POST /records: multer writes the uploads, then createRecord runs. -/
def postRecordPipeline (parse : String → Option Vitals) (saveOk : Bool)
    (newId caller : String) (body : ReqBody) (files : ReqFiles) (s : St) :
    St × Outcome × List Ev :=
  let m := multerStage files s.store
  let c := createRecord parse saveOk newId caller body files
    { db := s.db, store := m.1 }
  (c.1, c.2.1, m.2 ++ c.2.2)

/-- PUT /records/:id: multer writes the uploads, then updateRecord runs. -/
def putRecordPipeline (parse : String → Option Vitals)
    (unlinkOk : String → Bool) (saveOk : Bool) (rid caller : String)
    (body : ReqBody) (files : ReqFiles) (s : St) : St × Outcome × List Ev :=
  let m := multerStage files s.store
  let c := updateRecord parse unlinkOk saveOk rid caller body files
    { db := s.db, store := m.1 }
  (c.1, c.2.1, m.2 ++ c.2.2)

/-- deleteAccount (userController.js): `Record.deleteMany` on the owner's
records, then the user document is removed. No attachment-file cleanup
appears in the source. -/
def deleteAccount (userId : String) (s : St) : St × List Ev :=
  ({ db := fun x =>
       match s.db x with
       | some r => if r.user = userId then none else some r
       | none => none
     store := s.store },
   [Ev.repoDeleteMany userId])

/-! Concrete sample data used by witnesses and counterexamples. -/

/-- Sample vitals mirroring the spec's testable-property example. -/
def vitalsEx : Vitals :=
  { bloodPressure := some "120/80", heartRate := some "70",
    bloodSugar := none, weight := none, height := none }

/-- The wholesale-replacement vitals of the spec's example. -/
def vitals75 : Vitals :=
  { bloodPressure := none, heartRate := some "75",
    bloodSugar := none, weight := none, height := none }

/-- A stored record owned by alice with one lab-report attachment. -/
def recEx : HealthRecord :=
  { id := "r1", user := "alice", title := "Checkup",
    medicalHistory := "prior", doctorNotes := "fine",
    vitals := vitalsEx,
    files := { labReport := "/uploads/records/old.pdf", prescription := "" } }

/-- A repository holding exactly `recEx`. -/
def dbEx : DbMap := fun x => if x = "r1" then some recEx else none

/-- A state holding `recEx` and its attachment binary. -/
def stEx : St := { db := dbEx, store := ["/uploads/records/old.pdf"] }

/-- A JSON parser that rejects every input (models malformed vitals). -/
def parseNone : String → Option Vitals := fun _ => none

/-- A JSON parser that accepts exactly the sample payload. -/
def parseEx : String → Option Vitals :=
  fun s => if s = "vitals75" then some vitals75 else none

/-- Every unlink call succeeds. -/
def ulOk : String → Bool := fun _ => true

/-- Request body with every key absent. -/
def emptyBody : ReqBody :=
  { title := none, medicalHistory := none, doctorNotes := none, vitals := none }

/-- No uploaded files. -/
def noFiles : ReqFiles := { labReport := none, prescription := none }

/-- A single uploaded lab report. -/
def labOnly : ReqFiles := { labReport := some "new.pdf", prescription := none }

/-! Preservation lemmas for the attachment-replacement helpers. -/

theorem replaceLabReport_id (u : String → Bool) (fo : Option String)
    (r : HealthRecord) (st : List String) :
    (replaceLabReport u fo r st).2.2.id = r.id := by cases fo <;> rfl

theorem replaceLabReport_title (u : String → Bool) (fo : Option String)
    (r : HealthRecord) (st : List String) :
    (replaceLabReport u fo r st).2.2.title = r.title := by cases fo <;> rfl

theorem replaceLabReport_medicalHistory (u : String → Bool)
    (fo : Option String) (r : HealthRecord) (st : List String) :
    (replaceLabReport u fo r st).2.2.medicalHistory = r.medicalHistory := by
  cases fo <;> rfl

theorem replaceLabReport_doctorNotes (u : String → Bool) (fo : Option String)
    (r : HealthRecord) (st : List String) :
    (replaceLabReport u fo r st).2.2.doctorNotes = r.doctorNotes := by
  cases fo <;> rfl

theorem replaceLabReport_vitals (u : String → Bool) (fo : Option String)
    (r : HealthRecord) (st : List String) :
    (replaceLabReport u fo r st).2.2.vitals = r.vitals := by cases fo <;> rfl

theorem replaceLabReport_prescriptionSlot (u : String → Bool)
    (fo : Option String) (r : HealthRecord) (st : List String) :
    (replaceLabReport u fo r st).2.2.files.prescription =
      r.files.prescription := by cases fo <;> rfl

theorem replacePrescription_id (u : String → Bool) (fo : Option String)
    (r : HealthRecord) (st : List String) :
    (replacePrescription u fo r st).2.2.id = r.id := by cases fo <;> rfl

theorem replacePrescription_title (u : String → Bool) (fo : Option String)
    (r : HealthRecord) (st : List String) :
    (replacePrescription u fo r st).2.2.title = r.title := by cases fo <;> rfl

theorem replacePrescription_medicalHistory (u : String → Bool)
    (fo : Option String) (r : HealthRecord) (st : List String) :
    (replacePrescription u fo r st).2.2.medicalHistory = r.medicalHistory := by
  cases fo <;> rfl

theorem replacePrescription_doctorNotes (u : String → Bool)
    (fo : Option String) (r : HealthRecord) (st : List String) :
    (replacePrescription u fo r st).2.2.doctorNotes = r.doctorNotes := by
  cases fo <;> rfl

theorem replacePrescription_vitals (u : String → Bool) (fo : Option String)
    (r : HealthRecord) (st : List String) :
    (replacePrescription u fo r st).2.2.vitals = r.vitals := by
  cases fo <;> rfl

theorem replacePrescription_labSlot (u : String → Bool) (fo : Option String)
    (r : HealthRecord) (st : List String) :
    (replacePrescription u fo r st).2.2.files.labReport =
      r.files.labReport := by cases fo <;> rfl

/-- Saving a record whose id is the looked-up id makes findById return it. -/
theorem findById_saveRecord (db : DbMap) (r : HealthRecord) (rid : String)
    (hid : r.id = rid) : findById (saveRecord db r) rid = some r := by
  simp [findById, saveRecord, hid]

/-- C1: when the record with the given id exists but its owner differs from
the caller, both update and delete yield the unauthorized outcome (never
the not-found outcome) and leave the repository and the attachment store
unchanged. -/
theorem update_delete_owner_mismatch_unauthorized_unchanged
    (parse : String → Option Vitals) (u : String → Bool) (saveOk : Bool)
    (rid caller : String) (body : ReqBody) (files : ReqFiles) (s : St)
    (r : HealthRecord) (hf : findById s.db rid = some r)
    (hown : r.user ≠ caller) :
    (updateRecord parse u saveOk rid caller body files s).2.1 =
      Outcome.unauthorized
    ∧ (updateRecord parse u saveOk rid caller body files s).2.1 ≠
      Outcome.notFound
    ∧ (updateRecord parse u saveOk rid caller body files s).1.db = s.db
    ∧ (updateRecord parse u saveOk rid caller body files s).1.store = s.store
    ∧ (deleteRecord u rid caller s).2.1 = Outcome.unauthorized
    ∧ (deleteRecord u rid caller s).2.1 ≠ Outcome.notFound
    ∧ (deleteRecord u rid caller s).1.db = s.db
    ∧ (deleteRecord u rid caller s).1.store = s.store := by
  simp only [updateRecord, deleteRecord, hf, if_neg hown]
  simp

/-- Witness for C1 at a concrete state: bob attacks alice's record. -/
theorem update_delete_owner_mismatch_unauthorized_unchanged_witness :
    (updateRecord parseEx ulOk true "r1" "bob" emptyBody noFiles stEx).2.1 =
      Outcome.unauthorized
    ∧ (updateRecord parseEx ulOk true "r1" "bob" emptyBody noFiles stEx).2.1 ≠
      Outcome.notFound
    ∧ (updateRecord parseEx ulOk true "r1" "bob" emptyBody noFiles stEx).1.db =
      stEx.db
    ∧ (updateRecord parseEx ulOk true "r1" "bob" emptyBody noFiles
        stEx).1.store = stEx.store
    ∧ (deleteRecord ulOk "r1" "bob" stEx).2.1 = Outcome.unauthorized
    ∧ (deleteRecord ulOk "r1" "bob" stEx).2.1 ≠ Outcome.notFound
    ∧ (deleteRecord ulOk "r1" "bob" stEx).1.db = stEx.db
    ∧ (deleteRecord ulOk "r1" "bob" stEx).1.store = stEx.store :=
  update_delete_owner_mismatch_unauthorized_unchanged parseEx ulOk true
    "r1" "bob" emptyBody noFiles stEx recEx (by decide) (by decide)

/-- C2: in a successful update by the owner, each of title, medicalHistory,
doctorNotes is overwritten exactly when present in the request body; an
absent key preserves the stored value, and an explicit empty title makes
the stored title empty. -/
theorem update_text_fields_present_iff_overwritten
    (parse : String → Option Vitals) (u : String → Bool)
    (rid caller : String) (body : ReqBody) (files : ReqFiles) (s : St)
    (r : HealthRecord) (nv : Vitals) (hf : findById s.db rid = some r)
    (hid : r.id = rid) (hown : r.user = caller)
    (hv : updateVitals parse body.vitals r.vitals = some nv) :
    ∃ r', findById (updateRecord parse u true rid caller body files
        s).1.db rid = some r'
      ∧ r'.title = body.title.getD r.title
      ∧ r'.medicalHistory = body.medicalHistory.getD r.medicalHistory
      ∧ r'.doctorNotes = body.doctorNotes.getD r.doctorNotes
      ∧ (body.title = some "" → r'.title = "") := by
  have hv' : updateVitals parse body.vitals
      (applyTextFields body r).vitals = some nv := by
    simpa [applyTextFields] using hv
  simp only [updateRecord, hf, if_pos hown, hv', if_pos rfl]
  refine ⟨_, findById_saveRecord _ _ _ ?_, ?_, ?_, ?_, ?_⟩
  · simp [replacePrescription_id, replaceLabReport_id, applyTextFields, hid]
  · simp [replacePrescription_title, replaceLabReport_title, applyTextFields]
  · simp [replacePrescription_medicalHistory,
      replaceLabReport_medicalHistory, applyTextFields]
  · simp [replacePrescription_doctorNotes, replaceLabReport_doctorNotes,
      applyTextFields]
  · intro h
    simp [replacePrescription_title, replaceLabReport_title,
      applyTextFields, h]

/-- Request body with an explicit empty title and new doctor notes, with
medicalHistory absent. -/
def bodyEmptyTitle : ReqBody :=
  { title := some "", medicalHistory := none,
    doctorNotes := some "better", vitals := none }

/-- Witness for C2: an update carrying an explicit empty title and new
doctor notes, with medicalHistory absent from the body. -/
theorem update_text_fields_present_iff_overwritten_witness :
    ∃ r', findById (updateRecord parseEx ulOk true "r1" "alice"
        bodyEmptyTitle noFiles stEx).1.db "r1" = some r'
      ∧ r'.title = bodyEmptyTitle.title.getD recEx.title
      ∧ r'.medicalHistory =
          bodyEmptyTitle.medicalHistory.getD recEx.medicalHistory
      ∧ r'.doctorNotes = bodyEmptyTitle.doctorNotes.getD recEx.doctorNotes
      ∧ (bodyEmptyTitle.title = some "" → r'.title = "") :=
  update_text_fields_present_iff_overwritten parseEx ulOk "r1" "alice"
    bodyEmptyTitle noFiles stEx recEx recEx.vitals (by decide) (by decide)
    (by decide) (by decide)

/-- C3: in a successful update by the owner in which a non-empty vitals
string is supplied and parses, the stored vitals is replaced wholesale by
the parsed structure; a field absent from the supplied structure is absent
afterwards even if it was present before. -/
theorem update_vitals_wholesale_replace
    (parse : String → Option Vitals) (u : String → Bool)
    (rid caller : String) (body : ReqBody) (files : ReqFiles) (s : St)
    (r : HealthRecord) (vs : String) (v : Vitals)
    (hf : findById s.db rid = some r) (hid : r.id = rid)
    (hown : r.user = caller) (hvs : body.vitals = some vs) (hne : vs ≠ "")
    (hp : parse vs = some v) :
    ∃ r', findById (updateRecord parse u true rid caller body files
        s).1.db rid = some r'
      ∧ r'.vitals = v
      ∧ (v.bloodPressure = none → r'.vitals.bloodPressure = none) := by
  have hv' : updateVitals parse body.vitals
      (applyTextFields body r).vitals = some v := by
    simp [updateVitals, hvs, hne, hp]
  simp only [updateRecord, hf, if_pos hown, hv', if_pos rfl]
  refine ⟨_, findById_saveRecord _ _ _ ?_, ?_, ?_⟩
  · simp [replacePrescription_id, replaceLabReport_id, applyTextFields, hid]
  · simp [replacePrescription_vitals, replaceLabReport_vitals]
  · intro h
    simp [replacePrescription_vitals, replaceLabReport_vitals, h]

/-- Request body supplying only the sample vitals payload. -/
def bodyVitals75 : ReqBody :=
  { title := none, medicalHistory := none, doctorNotes := none,
    vitals := some "vitals75" }

/-- Witness for C3, the spec's own example: prior vitals 120/80 and 70,
supplied structure with only heartRate 75; the result has no
bloodPressure. -/
theorem update_vitals_wholesale_replace_witness :
    ∃ r', findById (updateRecord parseEx ulOk true "r1" "alice"
        bodyVitals75 noFiles stEx).1.db "r1" = some r'
      ∧ r'.vitals = vitals75
      ∧ (vitals75.bloodPressure = none →
          r'.vitals.bloodPressure = none) :=
  update_vitals_wholesale_replace parseEx ulOk "r1" "alice" bodyVitals75
    noFiles stEx recEx "vitals75" vitals75 (by decide) (by decide)
    (by decide) (by decide) (by decide) (by decide)

/-- The multer stage never deletes a file. -/
theorem multerStage_no_fileDelete (files : ReqFiles) (store : List String)
    (p : String) : Ev.fileDelete p ∉ (multerStage files store).2 := by
  cases hl : files.labReport <;> cases hq : files.prescription <;>
    simp [multerStage, hl, hq]

/-- The multer stage only adds files: existing paths stay stored. -/
theorem multerStage_store_mono (files : ReqFiles) (store : List String)
    (p : String) (h : p ∈ store) : p ∈ (multerStage files store).1 := by
  cases hl : files.labReport <;> cases hq : files.prescription <;>
    simp [multerStage, hl, hq, h]

/-- C4 counterexample: bob, who does not own record r1, sends an update
request with an uploaded lab report; the route's upload middleware writes
the file to the attachment store before the controller's ownership check
runs, so the unauthorized caller has caused a file write — and the file
stays stored. -/
theorem upload_written_for_unauthorized_caller :
    (putRecordPipeline parseEx ulOk true "r1" "bob" emptyBody labOnly
      stEx).2.1 = Outcome.unauthorized
    ∧ Ev.fileWrite "/uploads/records/new.pdf" ∈
      (putRecordPipeline parseEx ulOk true "r1" "bob" emptyBody labOnly
        stEx).2.2
    ∧ "/uploads/records/new.pdf" ∈
      (putRecordPipeline parseEx ulOk true "r1" "bob" emptyBody labOnly
        stEx).1.store := by decide

/-- C4 amended: the ownership check precedes every attachment-store file
deletion, so a caller who is not the record's owner never causes a file
delete and never changes the repository; uploaded files, however, are
written by the upload middleware before the ownership check, so such a
caller can still cause a file write. -/
theorem owner_mismatch_never_causes_file_delete
    (parse : String → Option Vitals) (u : String → Bool) (saveOk : Bool)
    (rid caller : String) (body : ReqBody) (files : ReqFiles) (s : St)
    (r : HealthRecord) (hf : findById s.db rid = some r)
    (hown : r.user ≠ caller) :
    (∀ p, Ev.fileDelete p ∉
      (putRecordPipeline parse u saveOk rid caller body files s).2.2)
    ∧ (putRecordPipeline parse u saveOk rid caller body files s).1.db = s.db
    ∧ (∀ p, Ev.fileDelete p ∉ (deleteRecord u rid caller s).2.2)
    ∧ (deleteRecord u rid caller s).1.db = s.db := by
  refine ⟨?_, ?_, ?_, ?_⟩ <;>
    simp only [putRecordPipeline, updateRecord, deleteRecord, hf,
      if_neg hown] <;>
    simp [multerStage_no_fileDelete]

/-- Witness for the amended C4: bob's upload-carrying update against
alice's record triggers no file delete and leaves the repository as it
was. -/
theorem owner_mismatch_never_causes_file_delete_witness :
    (∀ p, Ev.fileDelete p ∉
      (putRecordPipeline parseEx ulOk true "r1" "bob" emptyBody labOnly
        stEx).2.2)
    ∧ (putRecordPipeline parseEx ulOk true "r1" "bob" emptyBody labOnly
        stEx).1.db = stEx.db
    ∧ (∀ p, Ev.fileDelete p ∉ (deleteRecord ulOk "r1" "bob" stEx).2.2)
    ∧ (deleteRecord ulOk "r1" "bob" stEx).1.db = stEx.db :=
  owner_mismatch_never_causes_file_delete parseEx ulOk true "r1" "bob"
    emptyBody labOnly stEx recEx (by decide) (by decide)

/-- Request body with a valid title but malformed vitals JSON. -/
def bodyBadVitals : ReqBody :=
  { title := some "Checkup", medicalHistory := none, doctorNotes := none,
    vitals := some "oops" }

/-- C7 counterexample: a create request with malformed vitals and an
uploaded lab report fails validation, yet the uploaded file was already
written to the attachment store by the upload middleware and remains
stored after the failure — a persistent mutation survived a failing
create. -/
theorem file_written_despite_validation_failure :
    (postRecordPipeline parseNone true "n1" "alice" bodyBadVitals labOnly
      stEx).2.1 = Outcome.serverError "Create record failed"
    ∧ Ev.fileWrite "/uploads/records/new.pdf" ∈
      (postRecordPipeline parseNone true "n1" "alice" bodyBadVitals labOnly
        stEx).2.2
    ∧ "/uploads/records/new.pdf" ∈
      (postRecordPipeline parseNone true "n1" "alice" bodyBadVitals labOnly
        stEx).1.store := by decide

/-- C7 amended: on a vitals validation failure during update the stored
record is unchanged, no attachment file is deleted, and every previously
stored file is still stored; the failure cannot, however, precede the
upload middleware's file writes, which have already happened. -/
theorem update_validation_failure_preserves_record_and_files
    (parse : String → Option Vitals) (u : String → Bool) (saveOk : Bool)
    (rid caller : String) (body : ReqBody) (files : ReqFiles) (s : St)
    (r : HealthRecord) (vs : String) (hf : findById s.db rid = some r)
    (hown : r.user = caller) (hvs : body.vitals = some vs) (hne : vs ≠ "")
    (hp : parse vs = none) :
    (putRecordPipeline parse u saveOk rid caller body files s).2.1 =
      Outcome.serverError "Update record failed"
    ∧ (putRecordPipeline parse u saveOk rid caller body files s).1.db = s.db
    ∧ (∀ p, Ev.fileDelete p ∉
      (putRecordPipeline parse u saveOk rid caller body files s).2.2)
    ∧ (∀ p, p ∈ s.store →
      p ∈ (putRecordPipeline parse u saveOk rid caller body files
        s).1.store) := by
  have hv : updateVitals parse body.vitals
      (applyTextFields body r).vitals = none := by
    simp [updateVitals, hvs, hne, hp]
  have hred : putRecordPipeline parse u saveOk rid caller body files s =
      ({ db := s.db, store := (multerStage files s.store).1 },
       Outcome.serverError "Update record failed",
       (multerStage files s.store).2 ++ [Ev.ownershipCheck]) := by
    simp only [putRecordPipeline, updateRecord, hf, if_pos hown, hv]
  rw [hred]
  refine ⟨rfl, rfl, ?_, ?_⟩
  · intro p
    simp [multerStage_no_fileDelete]
  · intro p hp'
    exact multerStage_store_mono files s.store p hp'

/-- Witness for the amended C7: alice's update of her own record with
malformed vitals and an uploaded file. -/
theorem update_validation_failure_preserves_record_and_files_witness :
    (putRecordPipeline parseNone ulOk true "r1" "alice" bodyBadVitals
      labOnly stEx).2.1 = Outcome.serverError "Update record failed"
    ∧ (putRecordPipeline parseNone ulOk true "r1" "alice" bodyBadVitals
        labOnly stEx).1.db = stEx.db
    ∧ (∀ p, Ev.fileDelete p ∉
      (putRecordPipeline parseNone ulOk true "r1" "alice" bodyBadVitals
        labOnly stEx).2.2)
    ∧ (∀ p, p ∈ stEx.store →
      p ∈ (putRecordPipeline parseNone ulOk true "r1" "alice" bodyBadVitals
        labOnly stEx).1.store) :=
  update_validation_failure_preserves_record_and_files parseNone ulOk true
    "r1" "alice" bodyBadVitals labOnly stEx recEx "oops" (by decide)
    (by decide) (by decide) (by decide) (by decide)

/-- Request body with a valid title and no vitals. -/
def bodyPlain : ReqBody :=
  { title := some "Checkup", medicalHistory := none, doctorNotes := none,
    vitals := none }

/-- Request body with the title key absent. -/
def bodyNoTitle : ReqBody :=
  { title := none, medicalHistory := none, doctorNotes := none,
    vitals := none }

/-- C5 counterexample: three different failure causes of create — malformed
vitals, a missing title, and a repository persistence failure — all yield
one and the same generic outcome, so the failures are not surfaced as
distinct outcomes. -/
theorem create_failures_share_one_generic_outcome :
    (createRecord parseNone true "n1" "alice" bodyBadVitals noFiles
      stEx).2.1 = Outcome.serverError "Create record failed"
    ∧ (createRecord parseEx true "n1" "alice" bodyNoTitle noFiles
        stEx).2.1 = Outcome.serverError "Create record failed"
    ∧ (createRecord parseEx false "n1" "alice" bodyPlain noFiles
        stEx).2.1 = Outcome.serverError "Create record failed" := by
  decide

/-- C5 amended: every create request either succeeds or produces the single
generic failure outcome; missing title, malformed vitals and persistence
failures are all masked into that one outcome rather than surfaced as
distinct validation and storage outcomes. -/
theorem create_failure_single_generic_outcome
    (parse : String → Option Vitals) (saveOk : Bool) (newId caller : String)
    (body : ReqBody) (files : ReqFiles) (s : St) :
    (createRecord parse saveOk newId caller body files s).2.1 =
      Outcome.serverError "Create record failed"
    ∨ ∃ r, (createRecord parse saveOk newId caller body files s).2.1 =
      Outcome.created r := by
  cases hcv : createVitals parse body.vitals with
  | none => exact Or.inl (by simp [createRecord, hcv])
  | some v =>
    cases ht : body.title with
    | none => exact Or.inl (by simp [createRecord, hcv, ht])
    | some t =>
      cases saveOk with
      | false => exact Or.inl (by simp [createRecord, hcv, ht])
      | true =>
        right
        simp only [createRecord, hcv, ht, if_true]
        exact ⟨_, rfl⟩

/-- Witness for the amended C5 at the malformed-vitals input. -/
theorem create_failure_single_generic_outcome_witness :
    (createRecord parseNone true "n1" "alice" bodyBadVitals noFiles
      stEx).2.1 = Outcome.serverError "Create record failed"
    ∨ ∃ r, (createRecord parseNone true "n1" "alice" bodyBadVitals noFiles
      stEx).2.1 = Outcome.created r :=
  create_failure_single_generic_outcome parseNone true "n1" "alice"
    bodyBadVitals noFiles stEx

/-! Lemmas about the safe file-deletion helper. -/

theorem deleteFileIfExists_subset (u : String → Bool) (p q : String)
    (store : List String) (h : q ∈ (deleteFileIfExists u p store).1) :
    q ∈ store := by
  unfold deleteFileIfExists at h
  split at h
  · exact h
  · split at h
    · split at h
      · exact List.mem_of_mem_filter h
      · exact h
    · exact h

theorem deleteFileIfExists_not_mem (u : String → Bool) (p : String)
    (store : List String) (hu : ∀ x, u x = true) (hp : p ≠ "") :
    p ∉ (deleteFileIfExists u p store).1 := by
  unfold deleteFileIfExists
  rw [if_neg hp]
  split
  · rw [if_pos (hu p)]
    simp
  · assumption

theorem deleteFileIfExists_mem_of_ne (u : String → Bool) (p q : String)
    (store : List String) (hq : q ∈ store) (hne : q ≠ p) :
    q ∈ (deleteFileIfExists u p store).1 := by
  unfold deleteFileIfExists
  split
  · exact hq
  · split
    · split
      · simpa [hne] using hq
      · exact hq
    · exact hq

theorem deleteFileIfExists_events (u : String → Bool) (p : String)
    (store : List String) (hp : p ≠ "") (hm : p ∈ store) :
    (deleteFileIfExists u p store).2 = [Ev.fileDelete p] := by
  unfold deleteFileIfExists
  rw [if_neg hp, if_pos hm]
  split <;> rfl

/-- C6: deleting an existing record as its owner reports success, removes
the record (a second delete of the same id yields not-found, not a silent
success), deletes both attachment binaries when the unlinks succeed, and
attempts the file deletions strictly before the repository deletion, with
any individual unlink failure being non-fatal. -/
theorem delete_by_owner_removes_files_then_record
    (u : String → Bool) (rid caller : String) (s : St) (r : HealthRecord)
    (hf : findById s.db rid = some r) (hown : r.user = caller) :
    (deleteRecord u rid caller s).2.1 = Outcome.deleted
    ∧ findById (deleteRecord u rid caller s).1.db rid = none
    ∧ (deleteRecord u rid caller (deleteRecord u rid caller s).1).2.1 =
      Outcome.notFound
    ∧ ((∀ x, u x = true) →
        (r.files.labReport ≠ "" →
          r.files.labReport ∉ (deleteRecord u rid caller s).1.store)
        ∧ (r.files.prescription ≠ "" →
          r.files.prescription ∉ (deleteRecord u rid caller s).1.store))
    ∧ ∃ pre, (deleteRecord u rid caller s).2.2 =
        Ev.ownershipCheck :: (pre ++ [Ev.repoDelete rid])
      ∧ (r.files.labReport ≠ "" → r.files.labReport ∈ s.store →
          Ev.fileDelete r.files.labReport ∈ pre)
      ∧ (r.files.prescription ≠ "" → r.files.prescription ∈ s.store →
          Ev.fileDelete r.files.prescription ∈ pre) := by
  have hred : deleteRecord u rid caller s =
      ({ db := deleteById s.db rid,
         store := (deleteFileIfExists u r.files.prescription
           (deleteFileIfExists u r.files.labReport s.store).1).1 },
       Outcome.deleted,
       Ev.ownershipCheck ::
         ((deleteFileIfExists u r.files.labReport s.store).2 ++
          (deleteFileIfExists u r.files.prescription
            (deleteFileIfExists u r.files.labReport s.store).1).2 ++
          [Ev.repoDelete rid])) := by
    simp only [deleteRecord, hf, if_pos hown]
  rw [hred]
  refine ⟨rfl, ?_, ?_, ?_, ?_⟩
  · simp [findById, deleteById]
  · simp [deleteRecord, findById, deleteById]
  · intro hu
    refine ⟨fun hlab hmem => ?_, fun hpresc =>
      deleteFileIfExists_not_mem u r.files.prescription _ hu hpresc⟩
    exact deleteFileIfExists_not_mem u r.files.labReport s.store hu hlab
      (deleteFileIfExists_subset u r.files.prescription r.files.labReport
        _ hmem)
  · refine ⟨(deleteFileIfExists u r.files.labReport s.store).2 ++
      (deleteFileIfExists u r.files.prescription
        (deleteFileIfExists u r.files.labReport s.store).1).2, rfl, ?_, ?_⟩
    · intro hlab hmem
      rw [deleteFileIfExists_events u r.files.labReport s.store hlab hmem]
      simp
    · intro hpresc hmem
      by_cases hpe : r.files.prescription = r.files.labReport
      · rw [deleteFileIfExists_events u r.files.labReport s.store
          (hpe ▸ hpresc) (hpe ▸ hmem)]
        simp [hpe]
      · have hm1 : r.files.prescription ∈
            (deleteFileIfExists u r.files.labReport s.store).1 :=
          deleteFileIfExists_mem_of_ne u r.files.labReport
            r.files.prescription s.store hmem hpe
        rw [deleteFileIfExists_events u r.files.prescription _ hpresc hm1]
        simp

/-- A record owned by alice with both attachments present. -/
def recBoth : HealthRecord :=
  { id := "r2", user := "alice", title := "Scan",
    medicalHistory := "", doctorNotes := "",
    vitals := Vitals.empty,
    files := { labReport := "/uploads/records/a.pdf",
               prescription := "/uploads/records/b.pdf" } }

/-- A state holding `recBoth` and both of its attachment binaries. -/
def stBoth : St :=
  { db := fun x => if x = "r2" then some recBoth else none,
    store := ["/uploads/records/a.pdf", "/uploads/records/b.pdf"] }

/-- Witness for C6: alice deletes her two-attachment record. -/
theorem delete_by_owner_removes_files_then_record_witness :
    (deleteRecord ulOk "r2" "alice" stBoth).2.1 = Outcome.deleted
    ∧ findById (deleteRecord ulOk "r2" "alice" stBoth).1.db "r2" = none
    ∧ (deleteRecord ulOk "r2" "alice"
        (deleteRecord ulOk "r2" "alice" stBoth).1).2.1 = Outcome.notFound
    ∧ ((∀ x, ulOk x = true) →
        (recBoth.files.labReport ≠ "" →
          recBoth.files.labReport ∉
            (deleteRecord ulOk "r2" "alice" stBoth).1.store)
        ∧ (recBoth.files.prescription ≠ "" →
          recBoth.files.prescription ∉
            (deleteRecord ulOk "r2" "alice" stBoth).1.store))
    ∧ ∃ pre, (deleteRecord ulOk "r2" "alice" stBoth).2.2 =
        Ev.ownershipCheck :: (pre ++ [Ev.repoDelete "r2"])
      ∧ (recBoth.files.labReport ≠ "" →
          recBoth.files.labReport ∈ stBoth.store →
          Ev.fileDelete recBoth.files.labReport ∈ pre)
      ∧ (recBoth.files.prescription ≠ "" →
          recBoth.files.prescription ∈ stBoth.store →
          Ev.fileDelete recBoth.files.prescription ∈ pre) :=
  delete_by_owner_removes_files_then_record ulOk "r2" "alice" stBoth
    recBoth (by decide) (by decide)

/-- A request uploading both a new lab report and a new prescription. -/
def bothUpload : ReqFiles :=
  { labReport := some "new.pdf", prescription := some "rx.pdf" }

/-- C8: in every successful update by the owner, each attachment slot is
governed independently: a slot with no uploaded file keeps its existing
reference untouched; a slot with an uploaded file ends up referencing
exactly the newly written binary (which is live in the store whenever the
generated path collides with no prior reference), the previously
referenced binary is removed from the store when the unlink succeeds, and
its deletion is attempted — named by the old reference, hence before the
new reference is stored — whenever the old reference names a stored
file. -/
theorem update_attachment_replacement_single_reference
    (parse : String → Option Vitals) (u : String → Bool)
    (rid caller : String) (body : ReqBody) (files : ReqFiles) (s : St)
    (r : HealthRecord) (nv : Vitals)
    (hf : findById s.db rid = some r) (hid : r.id = rid)
    (hown : r.user = caller)
    (hv : updateVitals parse body.vitals r.vitals = some nv) :
    ∃ r', findById (putRecordPipeline parse u true rid caller body files
        s).1.db rid = some r'
      ∧ (files.labReport = none →
          r'.files.labReport = r.files.labReport)
      ∧ (files.prescription = none →
          r'.files.prescription = r.files.prescription)
      ∧ (∀ fn, files.labReport = some fn →
          r'.files.labReport = buildPublicPath "records" fn)
      ∧ (∀ fq, files.prescription = some fq →
          r'.files.prescription = buildPublicPath "records" fq)
      ∧ ((∀ x, u x = true) →
          (files.labReport ≠ none → r.files.labReport ≠ "" →
            r.files.labReport ∉
              (putRecordPipeline parse u true rid caller body files
                s).1.store)
          ∧ (files.prescription ≠ none → r.files.prescription ≠ "" →
            r.files.prescription ∉
              (putRecordPipeline parse u true rid caller body files
                s).1.store))
      ∧ (files.labReport ≠ none → r.files.labReport ≠ "" →
          r.files.labReport ∈ s.store →
          Ev.fileDelete r.files.labReport ∈
            (putRecordPipeline parse u true rid caller body files s).2.2)
      ∧ (files.prescription ≠ none → r.files.prescription ≠ "" →
          r.files.prescription ∈ s.store →
          Ev.fileDelete r.files.prescription ∈
            (putRecordPipeline parse u true rid caller body files s).2.2)
      ∧ (∀ fn, files.labReport = some fn →
          r.files.labReport ≠ buildPublicPath "records" fn →
          r.files.prescription ≠ buildPublicPath "records" fn →
          buildPublicPath "records" fn ∈
            (putRecordPipeline parse u true rid caller body files
              s).1.store)
      ∧ (∀ fq, files.prescription = some fq →
          r.files.labReport ≠ buildPublicPath "records" fq →
          r.files.prescription ≠ buildPublicPath "records" fq →
          buildPublicPath "records" fq ∈
            (putRecordPipeline parse u true rid caller body files
              s).1.store) := by
  obtain ⟨fl, fq⟩ := files
  cases fl with
  | none =>
    cases fq with
    | none =>
      simp only [putRecordPipeline, multerStage, updateRecord,
        replaceLabReport, replacePrescription, applyTextFields, hf,
        if_pos hown, hv, if_true]
      refine ⟨_, findById_saveRecord _ _ _ hid, fun _ => rfl, fun _ => rfl,
        ?_, ?_, ?_, ?_, ?_, ?_, ?_⟩
      · intro fn h
        exact absurd h (by simp)
      · intro fq' h
        exact absurd h (by simp)
      · intro _
        exact ⟨fun h => absurd rfl h, fun h => absurd rfl h⟩
      · intro h
        exact absurd rfl h
      · intro h
        exact absurd rfl h
      · intro fn h
        exact absurd h (by simp)
      · intro fq' h
        exact absurd h (by simp)
    | some fq =>
      simp only [putRecordPipeline, multerStage, updateRecord,
        replaceLabReport, replacePrescription, applyTextFields, hf,
        if_pos hown, hv, if_true]
      refine ⟨_, findById_saveRecord _ _ _ hid, fun _ => rfl, ?_,
        ?_, ?_, ?_, ?_, ?_, ?_, ?_⟩
      · intro h
        exact absurd h (by simp)
      · intro fn h
        exact absurd h (by simp)
      · intro fq' h
        injection h with h'
        subst h'
        rfl
      · intro hu
        refine ⟨fun h => absurd rfl h, fun _ hold => ?_⟩
        exact deleteFileIfExists_not_mem u r.files.prescription _ hu hold
      · intro h
        exact absurd rfl h
      · intro _ hold hmem
        rw [deleteFileIfExists_events u r.files.prescription _ hold
          (List.mem_append_left _ hmem)]
        simp
      · intro fn h
        exact absurd h (by simp)
      · intro fq' h hne1 hne2
        injection h with h'
        subst h'
        exact deleteFileIfExists_mem_of_ne u r.files.prescription
          (buildPublicPath "records" fq)
          (s.store ++ [buildPublicPath "records" fq]) (by simp)
          (Ne.symm hne2)
  | some fn =>
    cases fq with
    | none =>
      simp only [putRecordPipeline, multerStage, updateRecord,
        replaceLabReport, replacePrescription, applyTextFields, hf,
        if_pos hown, hv, if_true]
      refine ⟨_, findById_saveRecord _ _ _ hid, ?_, fun _ => rfl,
        ?_, ?_, ?_, ?_, ?_, ?_, ?_⟩
      · intro h
        exact absurd h (by simp)
      · intro fn' h
        injection h with h'
        subst h'
        rfl
      · intro fq' h
        exact absurd h (by simp)
      · intro hu
        refine ⟨fun _ hold => ?_, fun h => absurd rfl h⟩
        exact deleteFileIfExists_not_mem u r.files.labReport _ hu hold
      · intro _ hold hmem
        rw [deleteFileIfExists_events u r.files.labReport _ hold
          (List.mem_append_left _ hmem)]
        simp
      · intro h
        exact absurd rfl h
      · intro fn' h hne1 hne2
        injection h with h'
        subst h'
        exact deleteFileIfExists_mem_of_ne u r.files.labReport
          (buildPublicPath "records" fn)
          (s.store ++ [buildPublicPath "records" fn]) (by simp)
          (Ne.symm hne1)
      · intro fq' h
        exact absurd h (by simp)
    | some fq =>
      simp only [putRecordPipeline, multerStage, updateRecord,
        replaceLabReport, replacePrescription, applyTextFields, hf,
        if_pos hown, hv, if_true]
      refine ⟨_, findById_saveRecord _ _ _ hid, ?_, ?_,
        ?_, ?_, ?_, ?_, ?_, ?_, ?_⟩
      · intro h
        exact absurd h (by simp)
      · intro h
        exact absurd h (by simp)
      · intro fn' h
        injection h with h'
        subst h'
        rfl
      · intro fq' h
        injection h with h'
        subst h'
        rfl
      · intro hu
        refine ⟨fun _ hold hmem => ?_, fun _ hold => ?_⟩
        · exact deleteFileIfExists_not_mem u r.files.labReport _ hu hold
            (deleteFileIfExists_subset u r.files.prescription
              r.files.labReport _ hmem)
        · exact deleteFileIfExists_not_mem u r.files.prescription _ hu hold
      · intro _ hold hmem
        rw [deleteFileIfExists_events u r.files.labReport _ hold
          (List.mem_append_left _ (List.mem_append_left _ hmem))]
        simp
      · intro _ hold hmem
        by_cases hpe : r.files.prescription = r.files.labReport
        · rw [deleteFileIfExists_events u r.files.labReport _ (hpe ▸ hold)
            (List.mem_append_left _ (List.mem_append_left _ (hpe ▸ hmem)))]
          simp [hpe]
        · have h2 : r.files.prescription ∈ (deleteFileIfExists u
              r.files.labReport ((s.store ++
                [buildPublicPath "records" fn]) ++
                [buildPublicPath "records" fq])).1 :=
            deleteFileIfExists_mem_of_ne u r.files.labReport
              r.files.prescription _
              (List.mem_append_left _ (List.mem_append_left _ hmem)) hpe
          rw [deleteFileIfExists_events u r.files.prescription _ hold h2]
          simp
      · intro fn' h hne1 hne2
        injection h with h'
        subst h'
        have m2 : buildPublicPath "records" fn ∈ (deleteFileIfExists u
            r.files.labReport ((s.store ++
              [buildPublicPath "records" fn]) ++
              [buildPublicPath "records" fq])).1 :=
          deleteFileIfExists_mem_of_ne u r.files.labReport
            (buildPublicPath "records" fn) _ (by simp) (Ne.symm hne1)
        exact deleteFileIfExists_mem_of_ne u r.files.prescription
          (buildPublicPath "records" fn) _ m2 (Ne.symm hne2)
      · intro fq' h hne1 hne2
        injection h with h'
        subst h'
        have m2 : buildPublicPath "records" fq ∈ (deleteFileIfExists u
            r.files.labReport ((s.store ++
              [buildPublicPath "records" fn]) ++
              [buildPublicPath "records" fq])).1 :=
          deleteFileIfExists_mem_of_ne u r.files.labReport
            (buildPublicPath "records" fq) _ (by simp) (Ne.symm hne1)
        exact deleteFileIfExists_mem_of_ne u r.files.prescription
          (buildPublicPath "records" fq) _ m2 (Ne.symm hne2)

/-- Witness for C8: alice replaces both the lab report and the
prescription of her two-attachment record in one update. -/
theorem update_attachment_replacement_single_reference_witness :
    ∃ r', findById (putRecordPipeline parseEx ulOk true "r2" "alice"
        emptyBody bothUpload stBoth).1.db "r2" = some r'
      ∧ (bothUpload.labReport = none →
          r'.files.labReport = recBoth.files.labReport)
      ∧ (bothUpload.prescription = none →
          r'.files.prescription = recBoth.files.prescription)
      ∧ (∀ fn, bothUpload.labReport = some fn →
          r'.files.labReport = buildPublicPath "records" fn)
      ∧ (∀ fq, bothUpload.prescription = some fq →
          r'.files.prescription = buildPublicPath "records" fq)
      ∧ ((∀ x, ulOk x = true) →
          (bothUpload.labReport ≠ none → recBoth.files.labReport ≠ "" →
            recBoth.files.labReport ∉
              (putRecordPipeline parseEx ulOk true "r2" "alice" emptyBody
                bothUpload stBoth).1.store)
          ∧ (bothUpload.prescription ≠ none →
            recBoth.files.prescription ≠ "" →
            recBoth.files.prescription ∉
              (putRecordPipeline parseEx ulOk true "r2" "alice" emptyBody
                bothUpload stBoth).1.store))
      ∧ (bothUpload.labReport ≠ none → recBoth.files.labReport ≠ "" →
          recBoth.files.labReport ∈ stBoth.store →
          Ev.fileDelete recBoth.files.labReport ∈
            (putRecordPipeline parseEx ulOk true "r2" "alice" emptyBody
              bothUpload stBoth).2.2)
      ∧ (bothUpload.prescription ≠ none →
          recBoth.files.prescription ≠ "" →
          recBoth.files.prescription ∈ stBoth.store →
          Ev.fileDelete recBoth.files.prescription ∈
            (putRecordPipeline parseEx ulOk true "r2" "alice" emptyBody
              bothUpload stBoth).2.2)
      ∧ (∀ fn, bothUpload.labReport = some fn →
          recBoth.files.labReport ≠ buildPublicPath "records" fn →
          recBoth.files.prescription ≠ buildPublicPath "records" fn →
          buildPublicPath "records" fn ∈
            (putRecordPipeline parseEx ulOk true "r2" "alice" emptyBody
              bothUpload stBoth).1.store)
      ∧ (∀ fq, bothUpload.prescription = some fq →
          recBoth.files.labReport ≠ buildPublicPath "records" fq →
          recBoth.files.prescription ≠ buildPublicPath "records" fq →
          buildPublicPath "records" fq ∈
            (putRecordPipeline parseEx ulOk true "r2" "alice" emptyBody
              bothUpload stBoth).1.store) :=
  update_attachment_replacement_single_reference parseEx ulOk "r2" "alice"
    emptyBody bothUpload stBoth recBoth recBoth.vitals (by decide)
    (by decide) (by decide) (by decide)

/-- C9 counterexample: deleting alice's account removes her record from
the repository, but no attachment-store deletion is attempted: the
record's lab-report binary is still stored afterwards, orphaned, and the
operation's only event is the repository bulk delete. -/
theorem account_cascade_leaves_attachments_orphaned :
    (deleteAccount "alice" stEx).1.db "r1" = none
    ∧ (deleteAccount "alice" stEx).1.store = stEx.store
    ∧ "/uploads/records/old.pdf" ∈ (deleteAccount "alice" stEx).1.store
    ∧ (deleteAccount "alice" stEx).2 = [Ev.repoDeleteMany "alice"] := by
  decide

/-- C9 amended: the account-deletion cascade deletes every record owned by
the user from the repository (records of other owners survive), but it
removes no attached file from the attachment store: the store is untouched
and no file deletion is attempted. -/
theorem account_cascade_deletes_records_not_files (uid : String) (s : St) :
    (∀ rid r, (deleteAccount uid s).1.db rid = some r → r.user ≠ uid)
    ∧ (∀ rid r, s.db rid = some r → r.user ≠ uid →
        (deleteAccount uid s).1.db rid = some r)
    ∧ (deleteAccount uid s).1.store = s.store
    ∧ (∀ p, Ev.fileDelete p ∉ (deleteAccount uid s).2) := by
  refine ⟨?_, ?_, rfl, ?_⟩
  · intro rid r h
    cases hd : s.db rid with
    | none => simp [deleteAccount, hd] at h
    | some r0 =>
      by_cases ho : r0.user = uid
      · simp [deleteAccount, hd, ho] at h
      · simp [deleteAccount, hd, ho] at h
        subst h
        exact ho
  · intro rid r h ho
    simp [deleteAccount, h, ho]
  · intro p
    simp [deleteAccount]

/-- Witness for the amended C9 at the concrete single-record state. -/
theorem account_cascade_deletes_records_not_files_witness :
    (∀ rid r, (deleteAccount "alice" stEx).1.db rid = some r →
      r.user ≠ "alice")
    ∧ (∀ rid r, stEx.db rid = some r → r.user ≠ "alice" →
        (deleteAccount "alice" stEx).1.db rid = some r)
    ∧ (deleteAccount "alice" stEx).1.store = stEx.store
    ∧ (∀ p, Ev.fileDelete p ∉ (deleteAccount "alice" stEx).2) :=
  account_cascade_deletes_records_not_files "alice" stEx

/-- Request body creating a record with an explicitly empty vitals string. -/
def bodyCreateEmptyVitals : ReqBody :=
  { title := some "Checkup", medicalHistory := none, doctorNotes := none,
    vitals := some "" }

/-- Update request body whose only present key is an empty vitals string. -/
def bodyUpdateEmptyVitals : ReqBody :=
  { title := none, medicalHistory := none, doctorNotes := none,
    vitals := some "" }

/-- C10: a vitals value that is present but equal to the empty string is
treated exactly like an absent vitals value, for every parser (so no parse
is attempted and no error raised): create succeeds and stores the default
empty vitals structure, and update by the owner succeeds leaving the
stored vitals unchanged. -/
theorem empty_vitals_string_treated_as_absent
    (parse : String → Option Vitals) (u : String → Bool)
    (newId rid caller : String) (bodyC bodyU : ReqBody) (files : ReqFiles)
    (s : St) (r : HealthRecord) (t : String)
    (hvC : bodyC.vitals = some "") (ht : bodyC.title = some t)
    (hvU : bodyU.vitals = some "")
    (hf : findById s.db rid = some r) (hid : r.id = rid)
    (hown : r.user = caller) :
    (∃ rec, (createRecord parse true newId caller bodyC files s).2.1 =
        Outcome.created rec ∧ rec.vitals = Vitals.empty)
    ∧ ∃ r', findById (updateRecord parse u true rid caller bodyU files
        s).1.db rid = some r' ∧ r'.vitals = r.vitals := by
  constructor
  · have hcv : createVitals parse bodyC.vitals = some Vitals.empty := by
      simp [createVitals, hvC]
    simp only [createRecord, hcv, ht, if_true]
    exact ⟨_, rfl, rfl⟩
  · have hv' : updateVitals parse bodyU.vitals
        (applyTextFields bodyU r).vitals =
        some (applyTextFields bodyU r).vitals := by
      simp [updateVitals, hvU]
    simp only [updateRecord, hf, if_pos hown, hv', if_true]
    refine ⟨_, findById_saveRecord _ _ _ ?_, ?_⟩
    · simp [replacePrescription_id, replaceLabReport_id, applyTextFields,
        hid]
    · simp [replacePrescription_vitals, replaceLabReport_vitals,
        applyTextFields]

/-- Witness for C10 with the always-failing parser: even a parser that
rejects every input produces no error on an empty vitals string. -/
theorem empty_vitals_string_treated_as_absent_witness :
    (∃ rec, (createRecord parseNone true "n1" "alice" bodyCreateEmptyVitals
        noFiles stEx).2.1 = Outcome.created rec
      ∧ rec.vitals = Vitals.empty)
    ∧ ∃ r', findById (updateRecord parseNone ulOk true "r1" "alice"
        bodyUpdateEmptyVitals noFiles stEx).1.db "r1" = some r'
      ∧ r'.vitals = recEx.vitals :=
  empty_vitals_string_treated_as_absent parseNone ulOk "n1" "r1" "alice"
    bodyCreateEmptyVitals bodyUpdateEmptyVitals noFiles stEx recEx
    "Checkup" (by decide) (by decide) (by decide) (by decide) (by decide)
    (by decide)
